import Mathlib

/-!
Shallow embedding of `src/knowledge_graph/quickstart_neo4j.py`.

The script has two pieces of logic relevant to the specification:

* `add_episode_with_retry` (lines 63-122): a bounded exponential-backoff
  retry wrapper around one asynchronous library call, distinguishing
  rate-limit errors (retryable) from all other errors (fail fast);
* `main` (lines 125-362): a fail-fast batch loop over a fixed episode
  list, guarded search calls, and a `try`/`finally` that closes the
  database connection.

The external library call `graphiti.add_episode` is modelled by an
environment function giving the outcome of each attempt; the search
calls are likewise modelled by environment-supplied outcomes.  Observable
behaviour (attempts, backoff waits, search invocations, the final close)
is recorded as an event trace.  Delays are rationals (the Python floats
`2.0`, `base_delay * (2 ** attempt)` are exact powers of two, so ℚ is a
faithful idealisation).
-/

/-- Outcome of one attempt of the wrapped operation `graphiti.add_episode`:
it either returns normally, raises `RateLimitError`, or raises some other
exception (caught by the `except Exception` clause at line 118). -/
inductive AttemptOutcome : Type
  | success
  | rateLimit
  | otherError
deriving DecidableEq, Repr

/-- Observable event emitted by the retry coordinator: an attempt of the
underlying operation (with its 0-based attempt index), or a backoff wait
of a given duration (`await asyncio.sleep(delay)`, line 107). -/
inductive RetryEvent : Type
  | attempt (i : Nat)
  | wait (d : ℚ)
deriving DecidableEq, Repr

/-- Number of attempts recorded in a retry event trace. -/
def attemptCount (evs : List RetryEvent) : Nat :=
  (evs.filter fun e => match e with | .attempt _ => true | _ => false).length

/-- The backoff wait durations recorded in a retry event trace, in order. -/
def waitDurations (evs : List RetryEvent) : List ℚ :=
  evs.filterMap fun e => match e with | .wait d => some d | _ => none

/-- The body of the `for attempt in range(max_retries)` loop of
`add_episode_with_retry` (lines 88-122).  `fuel` is the number of loop
iterations still available (`max_retries - attempt`); the base case is
the `return False` at line 122, reached only when the range is exhausted
without an explicit return (i.e. when `max_retries = 0`).  The guard
`attempt < max_retries - 1` (line 101) is Python integer arithmetic, so
it is taken over `Int`. -/
def retryLoop (outcomes : Nat → AttemptOutcome) (max_retries : Nat) (base_delay : ℚ) :
    Nat → Nat → Bool × List RetryEvent
  | _, 0 => (false, [])
  | attempt, fuel + 1 =>
    match outcomes attempt with
    | .success => (true, [.attempt attempt])
    | .otherError => (false, [.attempt attempt])
    | .rateLimit =>
      if (attempt : Int) < (max_retries : Int) - 1 then
        let r := retryLoop outcomes max_retries base_delay (attempt + 1) fuel
        (r.1, .attempt attempt :: .wait (base_delay * 2 ^ attempt) :: r.2)
      else
        (false, [.attempt attempt])

/-- Model of `add_episode_with_retry` (lines 63-122).  The episode payload
itself does not influence control flow, so it is elided; `outcomes i`
gives the result of the `i`-th attempt of `graphiti.add_episode`.
Returns the boolean result together with the trace of attempts and
backoff waits.  The Python defaults are `max_retries = 3`,
`base_delay = 2.0`. -/
def add_episode_with_retry (outcomes : Nat → AttemptOutcome) (max_retries : Nat)
    (base_delay : ℚ) : Bool × List RetryEvent :=
  retryLoop outcomes max_retries base_delay 0 max_retries

@[simp]
theorem attemptCount_nil : attemptCount [] = 0 := rfl

@[simp]
theorem attemptCount_attempt_cons (i : Nat) (l : List RetryEvent) :
    attemptCount (.attempt i :: l) = attemptCount l + 1 := by
  simp [attemptCount, List.filter]

@[simp]
theorem attemptCount_wait_cons (d : ℚ) (l : List RetryEvent) :
    attemptCount (.wait d :: l) = attemptCount l := by
  simp [attemptCount, List.filter]

@[simp]
theorem waitDurations_nil : waitDurations [] = [] := rfl

@[simp]
theorem waitDurations_attempt_cons (i : Nat) (l : List RetryEvent) :
    waitDurations (.attempt i :: l) = waitDurations l := by
  simp [waitDurations]

@[simp]
theorem waitDurations_wait_cons (d : ℚ) (l : List RetryEvent) :
    waitDurations (.wait d :: l) = d :: waitDurations l := by
  simp [waitDurations]

example : add_episode_with_retry (fun _ => .success) 3 2 = (true, [.attempt 0]) := rfl

example : (add_episode_with_retry (fun _ => .rateLimit) 3 2).1 = false := rfl

example : attemptCount (add_episode_with_retry (fun _ => .rateLimit) 3 2).2 = 3 := rfl

example : (waitDurations (add_episode_with_retry (fun _ => .rateLimit) 3 2).2).length = 2 := rfl

example : add_episode_with_retry (fun _ => .rateLimit) 0 2 = (false, []) := rfl

/-- Whether one attempt outcome is a normal return of `graphiti.add_episode`. -/
def isSuccess : AttemptOutcome → Bool
  | .success => true
  | _ => false

/-- Trace of the retry loop when every attempt raises `RateLimitError`:
the loop consumes all its fuel, emits one attempt per iteration with a
backoff wait after every attempt except the last, and returns failure. -/
theorem retryLoop_all_rateLimit (o : Nat → AttemptOutcome) (hrl : ∀ i, o i = .rateLimit)
    (N : Nat) (D : ℚ) :
    ∀ fuel attempt, attempt + fuel = N →
      (retryLoop o N D attempt fuel).1 = false ∧
      attemptCount (retryLoop o N D attempt fuel).2 = fuel ∧
      waitDurations (retryLoop o N D attempt fuel).2 =
        (List.range (fuel - 1)).map (fun i => D * 2 ^ (attempt + i)) := by
  intro fuel
  induction fuel with
  | zero => intro attempt _; simp [retryLoop]
  | succ m ih =>
    intro attempt hN
    rw [retryLoop, hrl attempt]
    by_cases hm : m = 0
    · subst hm
      have hcond : ¬ ((attempt : Int) < (N : Int) - 1) := by omega
      simp [hcond]
    · have hcond : (attempt : Int) < (N : Int) - 1 := by omega
      have hrec := ih (attempt + 1) (by omega)
      simp only [hcond, if_pos]
      refine ⟨hrec.1, ?_, ?_⟩
      · simp [hrec.2.1]
      · simp only [waitDurations_attempt_cons, waitDurations_wait_cons, hrec.2.2]
        obtain ⟨k, rfl⟩ : ∃ k, m = k + 1 := ⟨m - 1, by omega⟩
        have h1 : k + 1 - 1 = k := by omega
        have h2 : k + 1 + 1 - 1 = k + 1 := by omega
        rw [h1, h2, List.range_succ_eq_map, List.map_cons, List.map_map]
        refine List.cons_eq_cons.mpr ⟨by rw [Nat.add_zero], ?_⟩
        apply List.map_congr_left
        intro i _
        simp only [Function.comp_apply, Nat.succ_eq_add_one]
        rw [show attempt + (i + 1) = attempt + 1 + i by omega]

/-- Trace of the retry loop when the first attempt whose outcome is not a
rate-limit error is attempt `s` (0-based) and `s` is within the allowed
range: the loop reaches attempt `s`, emits `s - attempt + 1` attempts and
`s - attempt` waits, ends on the event of attempt `s`, and returns the
success bit of attempt `s`'s outcome. -/
theorem retryLoop_stops_at (o : Nat → AttemptOutcome) (N : Nat) (D : ℚ) (s : Nat)
    (hrl : ∀ j, j < s → o j = .rateLimit) (hsN : s < N) (hns : o s ≠ .rateLimit) :
    ∀ fuel attempt, attempt + fuel = N → attempt ≤ s →
      (retryLoop o N D attempt fuel).1 = isSuccess (o s) ∧
      attemptCount (retryLoop o N D attempt fuel).2 = s - attempt + 1 ∧
      (waitDurations (retryLoop o N D attempt fuel).2).length = s - attempt ∧
      (retryLoop o N D attempt fuel).2.getLast? = some (.attempt s) := by
  intro fuel
  induction fuel with
  | zero => intro attempt hN hs; omega
  | succ m ih =>
    intro attempt hN hs
    rcases Nat.eq_or_lt_of_le hs with heq | hlt
    · subst heq
      rw [retryLoop]
      cases hoa : o attempt with
      | success => simp [isSuccess, hoa]
      | rateLimit => exact absurd hoa hns
      | otherError => simp [isSuccess, hoa]
    · rw [retryLoop, hrl attempt hlt]
      have hcond : (attempt : Int) < (N : Int) - 1 := by omega
      have hrec := ih (attempt + 1) (by omega) (by omega)
      simp only [hcond, if_pos]
      refine ⟨hrec.1, ?_, ?_, ?_⟩
      · simp only [attemptCount_attempt_cons, attemptCount_wait_cons, hrec.2.1]
        omega
      · simp only [waitDurations_attempt_cons, waitDurations_wait_cons, List.length_cons,
          hrec.2.2.1]
        omega
      · have hlast := hrec.2.2.2
        cases hr : (retryLoop o N D (attempt + 1) m).2 with
        | nil => rw [hr] at hlast; simp at hlast
        | cons x xs =>
          rw [hr] at hlast
          rw [List.getLast?_cons_cons, List.getLast?_cons_cons, hlast]

/-- C1: a persistently rate-limited operation performs exactly N attempts
and exactly N−1 backoff waits of durations D·2^0, D·2^1, …, D·2^(N−2) in
that order, and then returns failure. -/
theorem C1_persistent_rate_limit (N : Nat) (D : ℚ) (o : Nat → AttemptOutcome)
    (hN : 1 ≤ N) (hrl : ∀ i, o i = .rateLimit) :
    (add_episode_with_retry o N D).1 = false ∧
    attemptCount (add_episode_with_retry o N D).2 = N ∧
    waitDurations (add_episode_with_retry o N D).2 =
      (List.range (N - 1)).map (fun i => D * 2 ^ i) := by
  have h := retryLoop_all_rateLimit o hrl N D N 0 (by omega)
  refine ⟨h.1, h.2.1, ?_⟩
  rw [add_episode_with_retry, h.2.2]
  simp

/-- Closed witness for C1 at N = 3, D = 2: three attempts, waits 2·2^0 and
2·2^1, and failure. -/
theorem C1_witness :
    (add_episode_with_retry (fun _ => .rateLimit) 3 2).1 = false ∧
    attemptCount (add_episode_with_retry (fun _ => .rateLimit) 3 2).2 = 3 ∧
    waitDurations (add_episode_with_retry (fun _ => .rateLimit) 3 2).2 =
      (List.range 2).map (fun i => 2 * 2 ^ i) :=
  C1_persistent_rate_limit 3 2 (fun _ => .rateLimit) (by decide) (fun _ => rfl)

/-- C6: an operation that fails with a rate-limit error on the first k−1
attempts and succeeds on attempt k (1 ≤ k ≤ N) performs exactly k attempts
and exactly k−1 backoff waits and returns success. -/
theorem C6_success_on_attempt_k (N k : Nat) (D : ℚ) (o : Nat → AttemptOutcome)
    (hk1 : 1 ≤ k) (hkN : k ≤ N)
    (hrl : ∀ j, j < k - 1 → o j = .rateLimit) (hs : o (k - 1) = .success) :
    (add_episode_with_retry o N D).1 = true ∧
    attemptCount (add_episode_with_retry o N D).2 = k ∧
    (waitDurations (add_episode_with_retry o N D).2).length = k - 1 := by
  have h := retryLoop_stops_at o N D (k - 1) hrl (by omega)
    (by rw [hs]; intro hc; cases hc) N 0 (by omega) (by omega)
  rw [add_episode_with_retry]
  refine ⟨?_, ?_, ?_⟩
  · rw [h.1, hs]; rfl
  · rw [h.2.1]; omega
  · rw [h.2.2.1]; omega

/-- Closed witness for C6 at N = 3, k = 2: rate-limit on the first attempt,
success on the second. -/
theorem C6_witness :
    (add_episode_with_retry (fun i => if i = 0 then .rateLimit else .success) 3 2).1 = true ∧
    attemptCount
      (add_episode_with_retry (fun i => if i = 0 then .rateLimit else .success) 3 2).2 = 2 ∧
    (waitDurations
      (add_episode_with_retry (fun i => if i = 0 then .rateLimit else .success) 3 2).2).length =
      2 - 1 :=
  C6_success_on_attempt_k 3 2 2 (fun i => if i = 0 then .rateLimit else .success)
    (by decide) (by decide) (by decide) (by decide)

/-- Counterexample to C2 as stated: with max attempts N = 2, a rate-limit
error on attempt 1 followed by a non-rate-limit error on attempt 2
satisfies the claim's hypotheses (a non-rate-limit error occurs on attempt
k = 2 with 1 ≤ k ≤ N), yet the run makes 2 attempts and 1 backoff wait,
not exactly one attempt and zero backoff waits. -/
theorem C2_counterexample :
    (add_episode_with_retry (fun i => if i = 0 then .rateLimit else .otherError) 2 2).1 =
      false ∧
    attemptCount
      (add_episode_with_retry (fun i => if i = 0 then .rateLimit else .otherError) 2 2).2 = 2 ∧
    (waitDurations
      (add_episode_with_retry
        (fun i => if i = 0 then .rateLimit else .otherError) 2 2).2).length = 1 ∧
    ¬ (attemptCount
        (add_episode_with_retry
          (fun i => if i = 0 then .rateLimit else .otherError) 2 2).2 = 1 ∧
      (waitDurations
        (add_episode_with_retry
          (fun i => if i = 0 then .rateLimit else .otherError) 2 2).2).length = 0) := by
  refine ⟨rfl, rfl, rfl, ?_⟩
  intro hc
  exact absurd hc.1 (by decide)

/-- C2 (amended): if the first k−1 attempts fail with rate-limit errors and
a non-rate-limit error occurs on attempt k (1 ≤ k ≤ N), the coordinator
terminates immediately after that attempt — the fatal attempt is the last
recorded event, with no backoff wait after it and no further attempts —
and reports failure, having made exactly k attempts and k−1 backoff waits
in total. -/
theorem C2_fatal_error_fail_fast (N k : Nat) (D : ℚ) (o : Nat → AttemptOutcome)
    (hk1 : 1 ≤ k) (hkN : k ≤ N)
    (hrl : ∀ j, j < k - 1 → o j = .rateLimit) (hf : o (k - 1) = .otherError) :
    (add_episode_with_retry o N D).1 = false ∧
    attemptCount (add_episode_with_retry o N D).2 = k ∧
    (waitDurations (add_episode_with_retry o N D).2).length = k - 1 ∧
    (add_episode_with_retry o N D).2.getLast? = some (.attempt (k - 1)) := by
  have h := retryLoop_stops_at o N D (k - 1) hrl (by omega)
    (by rw [hf]; intro hc; cases hc) N 0 (by omega) (by omega)
  rw [add_episode_with_retry]
  refine ⟨?_, ?_, ?_, h.2.2.2⟩
  · rw [h.1, hf]; rfl
  · rw [h.2.1]; omega
  · rw [h.2.2.1]; omega

/-- Closed witness for the amended C2 at N = 2, k = 2. -/
theorem C2_witness :
    (add_episode_with_retry (fun i => if i = 0 then .rateLimit else .otherError) 2 2).1 =
      false ∧
    attemptCount
      (add_episode_with_retry (fun i => if i = 0 then .rateLimit else .otherError) 2 2).2 = 2 ∧
    (waitDurations
      (add_episode_with_retry
        (fun i => if i = 0 then .rateLimit else .otherError) 2 2).2).length = 2 - 1 ∧
    (add_episode_with_retry
      (fun i => if i = 0 then .rateLimit else .otherError) 2 2).2.getLast? =
      some (.attempt (2 - 1)) :=
  C2_fatal_error_fail_fast 2 2 2 (fun i => if i = 0 then .rateLimit else .otherError)
    (by decide) (by decide) (by decide) (by decide)

/-- Counterexample to C3 as stated: the interface of
`add_episode_with_retry` accepts any integer for `max_retries`, and with
`max_retries = 0` the `for attempt in range(max_retries)` loop runs zero
iterations, so zero attempts are performed — the attempt count is not ≥ 1. -/
theorem C3_counterexample :
    attemptCount (add_episode_with_retry (fun _ => .success) 0 2).2 = 0 ∧
    ¬ (1 ≤ attemptCount (add_episode_with_retry (fun _ => .success) 0 2).2) := by
  exact ⟨rfl, by decide⟩

/-- C3 (amended): for every max-attempts value N ≥ 1 (which includes every
call the script actually makes, always `max_retries = 3`), at least one
attempt of the underlying operation is performed, whatever the outcomes. -/
theorem retryLoop_pos_fuel_head (o : Nat → AttemptOutcome) (N : Nat) (D : ℚ)
    (attempt fuel : Nat) :
    ∃ rest, (retryLoop o N D attempt (fuel + 1)).2 = .attempt attempt :: rest := by
  rw [retryLoop]
  cases o attempt with
  | success => exact ⟨[], rfl⟩
  | otherError => exact ⟨[], rfl⟩
  | rateLimit =>
    by_cases hcond : (attempt : Int) < (N : Int) - 1
    · exact ⟨.wait (D * 2 ^ attempt) :: (retryLoop o N D (attempt + 1) fuel).2,
        by simp [hcond]⟩
    · exact ⟨[], by simp [hcond]⟩

theorem C3_at_least_one_attempt (N : Nat) (D : ℚ) (o : Nat → AttemptOutcome)
    (hN : 1 ≤ N) :
    1 ≤ attemptCount (add_episode_with_retry o N D).2 := by
  obtain ⟨m, rfl⟩ : ∃ m, N = m + 1 := ⟨N - 1, by omega⟩
  obtain ⟨rest, hrest⟩ := retryLoop_pos_fuel_head o (m + 1) D 0 m
  rw [add_episode_with_retry, hrest, attemptCount_attempt_cons]
  omega

/-- Closed witness for the amended C3 at N = 1. -/
theorem C3_witness :
    1 ≤ attemptCount (add_episode_with_retry (fun _ => .otherError) 1 2).2 :=
  C3_at_least_one_attempt 1 2 (fun _ => .otherError) (by decide)

/-!
For C8 the retry wrapper is re-modelled inside an exception monad, so that
"no exception crosses the component boundary" is a statement rather than a
typing accident: each attempt of `graphiti.add_episode` may raise, and the
`try`/`except RateLimitError`/`except Exception` structure of lines 89-120
is translated explicitly.
-/

/-- Exceptions of the modelled error taxonomy: `RateLimitError` and any
other exception caught by `except Exception` (line 118). -/
inductive PyExc : Type
  | rateLimitError
  | otherException
deriving DecidableEq, Repr

/-- One attempt of `graphiti.add_episode` (line 90) seen as a fallible
computation: it returns normally or raises. -/
def add_episode_call (outcome : AttemptOutcome) : Except PyExc Unit :=
  match outcome with
  | .success => .ok ()
  | .rateLimit => .error .rateLimitError
  | .otherError => .error .otherException

/-- Python `try`/`except RateLimitError`/`except Exception` (lines 89-120):
run the body; on a rate-limit error run the first handler, on any other
exception run the second.  Every exception of the taxonomy is caught. -/
def tryExcept {α : Type} (body : Except PyExc α)
    (onRateLimit : Unit → Except PyExc α) (onOther : Unit → Except PyExc α) :
    Except PyExc α :=
  match body with
  | .ok a => .ok a
  | .error .rateLimitError => onRateLimit ()
  | .error .otherException => onOther ()

/-- The loop of `add_episode_with_retry` re-modelled in the exception
monad, with the `try`/`except` structure explicit. -/
def retryLoopExc (outcomes : Nat → AttemptOutcome) (max_retries : Nat) (base_delay : ℚ) :
    Nat → Nat → Except PyExc (Bool × List RetryEvent)
  | _, 0 => .ok (false, [])
  | attempt, fuel + 1 =>
    tryExcept
      (match add_episode_call (outcomes attempt) with
       | .ok _ => .ok (true, [.attempt attempt])
       | .error e => .error e)
      (fun _ =>
        if (attempt : Int) < (max_retries : Int) - 1 then
          match retryLoopExc outcomes max_retries base_delay (attempt + 1) fuel with
          | .ok r => .ok (r.1, .attempt attempt :: .wait (base_delay * 2 ^ attempt) :: r.2)
          | .error e => .error e
        else
          .ok (false, [.attempt attempt]))
      (fun _ => .ok (false, [.attempt attempt]))

/-- `add_episode_with_retry` in the exception monad. -/
def add_episode_with_retry_exc (outcomes : Nat → AttemptOutcome) (max_retries : Nat)
    (base_delay : ℚ) : Except PyExc (Bool × List RetryEvent) :=
  retryLoopExc outcomes max_retries base_delay 0 max_retries

theorem retryLoopExc_eq_ok (o : Nat → AttemptOutcome) (N : Nat) (D : ℚ) :
    ∀ fuel attempt, retryLoopExc o N D attempt fuel = .ok (retryLoop o N D attempt fuel) := by
  intro fuel
  induction fuel with
  | zero => intro attempt; rfl
  | succ m ih =>
    intro attempt
    rw [retryLoopExc, retryLoop]
    cases o attempt with
    | success => rfl
    | otherError => rfl
    | rateLimit =>
      simp only [add_episode_call, tryExcept]
      by_cases hcond : (attempt : Int) < (N : Int) - 1
      · simp [hcond, ih (attempt + 1)]
      · simp [hcond]

/-- C8: for every input and every sequence of outcomes of the wrapped
operation, the Retry Coordinator returns a boolean outcome: its
exception-monad model always returns normally (never propagates an
exception to the caller), with the same boolean result and trace as the
reference model. -/
theorem C8_no_exception_escapes (o : Nat → AttemptOutcome) (N : Nat) (D : ℚ) :
    add_episode_with_retry_exc o N D = .ok (add_episode_with_retry o N D) :=
  retryLoopExc_eq_ok o N D N 0

/-!
Model of `main` (lines 125-362): the fixed episode list, the fail-fast
batch loop (lines 191-224), the guard on search operations (lines
240-242), the basic / center-node / node searches (lines 246-335) and the
`try`/`finally` close (lines 352-362).
-/

/-- The two episode source kinds (`EpisodeType.text`, `EpisodeType.json`). -/
inductive EpisodeKind : Type
  | text
  | json
deriving DecidableEq, Repr

/-- One entry of the `episodes` list (lines 153-186); for JSON episodes
the content is the `json.dumps` serialisation computed at line 196. -/
structure Episode : Type where
  content : String
  kind : EpisodeKind
  description : String
deriving DecidableEq, Repr

/-- The fixed episode list of `main` (lines 153-186). -/
def episodes : List Episode :=
  [{ content := "Kamala Harris is the Attorney General of California. She was previously the district attorney for San Francisco.",
     kind := .text, description := "podcast transcript" },
   { content := "As AG, Harris was in office from January 3, 2011 – January 3, 2017",
     kind := .text, description := "podcast transcript" },
   { content := "\x7b\"name\": \"Gavin Newsom\", \"position\": \"Governor\", \"state\": \"California\", \"previous_role\": \"Lieutenant Governor\", \"previous_location\": \"San Francisco\"\x7d",
     kind := .json, description := "podcast metadata" },
   { content := "\x7b\"name\": \"Gavin Newsom\", \"position\": \"Governor\", \"term_start\": \"January 7, 2019\", \"term_end\": \"Present\"\x7d",
     kind := .json, description := "podcast metadata" }]

/-- One record of the list returned by `graphiti.search` (used at lines
257-264 and 277). -/
structure FactResult : Type where
  uuid : String
  fact : String
  source_node_uuid : String
  valid_at : Option String
  invalid_at : Option String
deriving DecidableEq, Repr

/-- One record of `node_search_results.nodes` (lines 339-350). -/
structure NodeResult : Type where
  uuid : String
  name : String
  summary : String
  labels : List String
  created_at : String
deriving DecidableEq, Repr

/-- Outcome of one search call: a normal return carrying its results, a
`RateLimitError`, or any other exception. -/
inductive SearchOutcome (α : Type) : Type
  | ok (results : α)
  | rateLimitError
  | otherException
deriving DecidableEq

/-- Environment of one run of `main`: the outcome of every attempt of
`graphiti.add_episode` for every episode index, and the outcomes of the
three search calls.  The center-node search outcome may depend on the
center node uuid it is invoked with. -/
structure Env : Type where
  attemptOutcome : Nat → Nat → AttemptOutcome
  basicSearchOutcome : SearchOutcome (List FactResult)
  centerSearchOutcome : String → SearchOutcome (List FactResult)
  nodeSearchOutcome : SearchOutcome (List NodeResult)

/-- Observable event of one run of `main`. -/
inductive MainEvent : Type
  | episodeRetry (i : Nat)
  | pacingSleep
  | basicSearch (query : String)
  | centerSearch (query : String) (center : String)
  | nodeSearch (query : String)
  | close
deriving DecidableEq, Repr

/-- Result of the batch loop: the two counters `episodes_added` and
`episodes_failed` (lines 138-139) and the events the loop emitted. -/
structure BatchResult : Type where
  added : Nat
  failed : Nat
  events : List MainEvent
deriving DecidableEq, Repr

/-- The `for i, episode in enumerate(episodes)` loop (lines 191-224):
each iteration invokes `add_episode_with_retry` with `max_retries = 3`,
`base_delay = 2.0`; on success it increments `episodes_added` and sleeps
1 second unless the episode is the last (line 216); on failure it
increments `episodes_failed` and breaks out of the loop (line 224).
`total` is `len(episodes)`; the argument list is the list of indices still
to process. -/
def episodeLoop (env : Nat → Nat → AttemptOutcome) (total : Nat) :
    List Nat → BatchResult
  | [] => ⟨0, 0, []⟩
  | i :: rest =>
    if (add_episode_with_retry (env i) 3 2).1 then
      let b := episodeLoop env total rest
      ⟨b.added + 1, b.failed,
        .episodeRetry i ::
          ((if (i : Int) < (total : Int) - 1 then [.pacingSleep] else []) ++ b.events)⟩
    else
      ⟨0, 1, [.episodeRetry i]⟩

/-- The batch loop run over all indices of an episode list of length
`total`. -/
def runBatch (env : Nat → Nat → AttemptOutcome) (total : Nat) : BatchResult :=
  episodeLoop env total (List.range total)

/-- The query of the basic and center-node searches (lines 247 and 284). -/
def searchQuery : String := "Who was the California Attorney General?"

/-- The query of the node search (line 327). -/
def nodeSearchQuery : String := "California Governor"

/-- Events of the node search step (lines 325-350): the `_search` call is
issued; on either kind of error the function returns early, and after a
normal return it only prints. -/
def nodeSearchEvents (env : Env) : List MainEvent :=
  .nodeSearch nodeSearchQuery ::
    match env.nodeSearchOutcome with
    | .ok _ => []
    | .rateLimitError => []
    | .otherException => []

/-- Events of the search phase of `main` (lines 246-350), reached only
when at least one episode was added: the basic hybrid search, then — if
it returned a non-empty result list — the center-node search biased by
`results[0].source_node_uuid` (line 277), then the node search; each
search error returns early from `main`. -/
def searchPhaseEvents (env : Env) : List MainEvent :=
  .basicSearch searchQuery ::
    match env.basicSearchOutcome with
    | .rateLimitError => []
    | .otherException => []
    | .ok results =>
      match results with
      | [] => nodeSearchEvents env
      | r :: _ =>
        .centerSearch searchQuery r.source_node_uuid ::
          match env.centerSearchOutcome r.source_node_uuid with
          | .rateLimitError => []
          | .otherException => []
          | .ok _ => nodeSearchEvents env

/-- Python `try`/`finally` (lines 141-362) at the level of event traces:
whatever events the body emitted, and whether it ended normally or with
an escaping exception, the cleanup events run afterwards. -/
def tryFinallyEvents (body : List MainEvent × Option PyExc)
    (cleanup : List MainEvent) : List MainEvent × Option PyExc :=
  (body.1 ++ cleanup, body.2)

/-- Events of the body of the `try` block of `main`: the batch loop, then
the early return at lines 240-242 when no episode was added, otherwise
the search phase.  The body of this script never lets an exception
escape, hence the `none`. -/
def mainBodyEvents (env : Env) : List MainEvent :=
  (runBatch env.attemptOutcome episodes.length).events ++
    (if (runBatch env.attemptOutcome episodes.length).added = 0 then []
     else searchPhaseEvents env)

/-- Events of one run of `main` (lines 125-362): the `try` body followed
by the `finally` cleanup, which closes the connection (line 361). -/
def main_events (env : Env) : List MainEvent :=
  (tryFinallyEvents (mainBodyEvents env, none) [.close]).1

/-- Whether a main event is a search call of any kind. -/
def isSearchEvent : MainEvent → Bool
  | .basicSearch _ => true
  | .centerSearch _ _ => true
  | .nodeSearch _ => true
  | _ => false

theorem nodeSearchEvents_eq (env : Env) :
    nodeSearchEvents env = [.nodeSearch nodeSearchQuery] := by
  rw [nodeSearchEvents]
  cases env.nodeSearchOutcome <;> rfl

/-- The batch loop emits only retry invocations and pacing sleeps. -/
theorem episodeLoop_events_not_search (env : Nat → Nat → AttemptOutcome) (total : Nat) :
    ∀ l, ∀ e ∈ (episodeLoop env total l).events, isSearchEvent e = false := by
  intro l
  induction l with
  | nil => intro e he; simp [episodeLoop] at he
  | cons i rest ih =>
    intro e he
    cases hs : (add_episode_with_retry (env i) 3 2).1 with
    | false =>
      simp [episodeLoop, hs] at he
      subst he
      rfl
    | true =>
      simp only [episodeLoop, hs, if_true] at he
      rcases List.mem_cons.mp he with rfl | he2
      · rfl
      · rcases List.mem_append.mp he2 with h3 | h4
        · split at h3
          · rcases List.mem_singleton.mp h3 with rfl
            rfl
          · simp at h3
        · exact ih e h4

/-- The batch loop counters: at most one failure is ever recorded, and the
two counters together never exceed the number of items processed. -/
theorem episodeLoop_counters (env : Nat → Nat → AttemptOutcome) (total : Nat) :
    ∀ l, (episodeLoop env total l).failed ≤ 1 ∧
      (episodeLoop env total l).added + (episodeLoop env total l).failed ≤ l.length := by
  intro l
  induction l with
  | nil => simp [episodeLoop]
  | cons i rest ih =>
    cases hs : (add_episode_with_retry (env i) 3 2).1 with
    | false => simp [episodeLoop, hs]
    | true =>
      simp only [episodeLoop, hs, if_true, List.length_cons]
      omega

/-- C10: after the batch loop terminates, the failure counter is at most 1
and the sum of the success and failure counters is at most the number of
items in the list, for every outcome environment and list length. -/
theorem C10_batch_counter_invariant (env : Nat → Nat → AttemptOutcome) (total : Nat) :
    (runBatch env total).failed ≤ 1 ∧
    (runBatch env total).added + (runBatch env total).failed ≤ total := by
  have h := episodeLoop_counters env total (List.range total)
  rw [runBatch]
  simpa using h

/-- C4: in a batch of three items where the first succeeds and the second
fails, the loop processes item 0, attempts item 1, never attempts item 2,
and ends with one success and one failure. -/
theorem C4_batch_fail_fast (env : Nat → Nat → AttemptOutcome)
    (hA : (add_episode_with_retry (env 0) 3 2).1 = true)
    (hB : (add_episode_with_retry (env 1) 3 2).1 = false) :
    (runBatch env 3).added = 1 ∧ (runBatch env 3).failed = 1 ∧
    MainEvent.episodeRetry 0 ∈ (runBatch env 3).events ∧
    MainEvent.episodeRetry 1 ∈ (runBatch env 3).events ∧
    MainEvent.episodeRetry 2 ∉ (runBatch env 3).events := by
  have hr : List.range 3 = [0, 1, 2] := rfl
  have h2 : episodeLoop env 3 [1, 2] = ⟨0, 1, [.episodeRetry 1]⟩ := by
    simp [episodeLoop, hB]
  have h1 : episodeLoop env 3 [0, 1, 2] =
      ⟨1, 1, [.episodeRetry 0, .pacingSleep, .episodeRetry 1]⟩ := by
    rw [episodeLoop, if_pos hA, h2]
    norm_num
  rw [runBatch, hr, h1]
  refine ⟨rfl, rfl, ?_, ?_, ?_⟩ <;> simp

/-- Closed witness for C4: item 0 succeeds on the first attempt, item 1 is
persistently rate-limited (exhausts its retries), item 2 would succeed but
is never attempted. -/
theorem C4_witness :
    (runBatch (fun i _ => if i = 0 then .success else .rateLimit) 3).added = 1 ∧
    (runBatch (fun i _ => if i = 0 then .success else .rateLimit) 3).failed = 1 ∧
    MainEvent.episodeRetry 0 ∈
      (runBatch (fun i _ => if i = 0 then .success else .rateLimit) 3).events ∧
    MainEvent.episodeRetry 1 ∈
      (runBatch (fun i _ => if i = 0 then .success else .rateLimit) 3).events ∧
    MainEvent.episodeRetry 2 ∉
      (runBatch (fun i _ => if i = 0 then .success else .rateLimit) 3).events :=
  C4_batch_fail_fast (fun i _ => if i = 0 then .success else .rateLimit) rfl rfl

/-- C5: if zero episodes were added successfully, no search call of any
kind is issued during the run. -/
theorem C5_no_search_without_success (env : Env)
    (h : (runBatch env.attemptOutcome episodes.length).added = 0) :
    ∀ e ∈ main_events env, isSearchEvent e = false := by
  intro e he
  rw [main_events, tryFinallyEvents] at he
  simp only [mainBodyEvents, h, if_pos] at he
  rcases List.mem_append.mp he with hm | hm
  · rcases List.mem_append.mp hm with hm2 | hm2
    · exact episodeLoop_events_not_search env.attemptOutcome episodes.length _ e hm2
    · simp at hm2
  · rcases List.mem_singleton.mp hm with rfl
    rfl

/-- Closed witness for C5: every attempt of episode 0 fails fatally, so
zero episodes are added and the trace contains no search event. -/
theorem C5_witness :
    (main_events
      { attemptOutcome := fun _ _ => .otherError,
        basicSearchOutcome := .ok [],
        centerSearchOutcome := fun _ => .ok [],
        nodeSearchOutcome := .ok [] }).all (fun e => ! isSearchEvent e) = true := by
  apply List.all_eq_true.mpr
  intro e he
  have h := C5_no_search_without_success
    { attemptOutcome := fun _ _ => .otherError,
      basicSearchOutcome := .ok [],
      centerSearchOutcome := fun _ => .ok [],
      nodeSearchOutcome := .ok [] }
    rfl e he
  simp [h]

/-- C7: whenever the unbiased hybrid search returns a non-empty result
list (and the search phase is reached at all), the center-node search is
invoked with exactly the `source_node_uuid` of the first result of that
search as its center parameter — and with the same query. -/
theorem C7_center_search_uses_first_result (env : Env) (r : FactResult)
    (rs : List FactResult)
    (hb : env.basicSearchOutcome = .ok (r :: rs))
    (hadd : ¬ (runBatch env.attemptOutcome episodes.length).added = 0) :
    MainEvent.centerSearch searchQuery r.source_node_uuid ∈ main_events env ∧
    ∀ q c, MainEvent.centerSearch q c ∈ main_events env →
      q = searchQuery ∧ c = r.source_node_uuid := by
  have hbody : main_events env =
      (runBatch env.attemptOutcome episodes.length).events ++
        (searchPhaseEvents env ++ [.close]) := by
    rw [main_events, tryFinallyEvents, mainBodyEvents, if_neg hadd]
    simp
  have hphase : searchPhaseEvents env =
      .basicSearch searchQuery :: .centerSearch searchQuery r.source_node_uuid ::
        (match env.centerSearchOutcome r.source_node_uuid with
         | .rateLimitError => []
         | .otherException => []
         | .ok _ => nodeSearchEvents env) := by
    rw [searchPhaseEvents, hb]
  constructor
  · rw [hbody, hphase]
    simp
  · intro q c hmem
    rw [hbody] at hmem
    rcases List.mem_append.mp hmem with hm | hm
    · have hns := episodeLoop_events_not_search env.attemptOutcome episodes.length _ _ hm
      simp [isSearchEvent] at hns
    · rcases List.mem_append.mp hm with hm2 | hm2
      · rw [hphase] at hm2
        rcases List.mem_cons.mp hm2 with hq | hm3
        · cases hq
        · rcases List.mem_cons.mp hm3 with hq | hm4
          · cases hq
            exact ⟨rfl, rfl⟩
          · cases hco : env.centerSearchOutcome r.source_node_uuid <;>
              rw [hco] at hm4 <;>
              simp [nodeSearchEvents_eq] at hm4
      · simp at hm2

/-- Closed witness for C7: all episodes succeed and the basic search
returns one result whose source node uuid is "node-0". -/
theorem C7_witness :
    MainEvent.centerSearch searchQuery
        (FactResult.mk "uuid-0" "fact-0" "node-0" none none).source_node_uuid ∈
      main_events
        { attemptOutcome := fun _ _ => .success,
          basicSearchOutcome := .ok [FactResult.mk "uuid-0" "fact-0" "node-0" none none],
          centerSearchOutcome := fun _ => .ok [],
          nodeSearchOutcome := .ok [] } ∧
    ∀ q c, MainEvent.centerSearch q c ∈
        main_events
          { attemptOutcome := fun _ _ => .success,
            basicSearchOutcome := .ok [FactResult.mk "uuid-0" "fact-0" "node-0" none none],
            centerSearchOutcome := fun _ => .ok [],
            nodeSearchOutcome := .ok [] } →
      q = searchQuery ∧ c = (FactResult.mk "uuid-0" "fact-0" "node-0" none none).source_node_uuid :=
  C7_center_search_uses_first_result
    { attemptOutcome := fun _ _ => .success,
      basicSearchOutcome := .ok [FactResult.mk "uuid-0" "fact-0" "node-0" none none],
      centerSearchOutcome := fun _ => .ok [],
      nodeSearchOutcome := .ok [] }
    (FactResult.mk "uuid-0" "fact-0" "node-0" none none) [] rfl (by decide)

/-- C9: the `try`/`finally` structure guarantees that the close of the
database connection is the final event on every exit path — for every
body trace, whether the body ended normally or with an escaping
exception, and in particular for every run of `main` (normal completion,
early return with zero added episodes, early return after a search
error). -/
theorem C9_close_on_every_exit :
    (∀ (body : List MainEvent) (e : Option PyExc),
        ((tryFinallyEvents (body, e) [.close]).1).getLast? = some .close) ∧
    (∀ env : Env, (main_events env).getLast? = some .close) := by
  constructor
  · intro body e
    rw [tryFinallyEvents]
    exact List.getLast?_concat body
  · intro env
    rw [main_events, tryFinallyEvents]
    exact List.getLast?_concat _

